import Mathlib

/-!
Verification development for the Excel-to-PDF converter
(`src/excel_to_pdf.py`, class `ExcelToPdfConverter`).

The embedding models the converter's observable behaviour:
the workbook source is either readable (with parsed sheets) or
unreadable; the output directory is a finite map from filename to file
content; every `print` call is collected as a log line; the external
PDF renderer is abstracted to the data the converter hands it (the
title paragraph and the two-column table data) — the fixed style
constants (page size, margins, column widths, fonts) carry no
row-dependent information and are not modelled.  A write failure of
the underlying renderer (`doc.build` raising) is modelled by an
environment oracle `fs : String → Option String` giving, per filename,
either success (`none`) or the exception text (`some e`).
-/

/-- A spreadsheet cell as pandas hands it to the converter: a missing value
(NaN), an integer, or text.  Python floats are used by no claim and are not
modelled. -/
inductive Cell where
  | na : Cell
  | intV : Int → Cell
  | strV : String → Cell
deriving DecidableEq

/-- One decimal digit as a character: digit d becomes the character with
code 48 + d. -/
def digitChar (d : Nat) : Char := Char.ofNat (48 + d)

/-- Fuel-driven list of decimal digits of a natural number, most significant
first.  This is the decimal rendering used by Python string interpolation. -/
def toDecimalAux : Nat → Nat → List Char
  | 0, _ => []
  | fuel + 1, n =>
    if n < 10 then [digitChar n]
    else toDecimalAux fuel (n / 10) ++ [digitChar (n % 10)]

/-- Decimal string of a natural number, as produced by Python str(n) for
n ≥ 0. -/
def decimalStr (n : Nat) : String := String.mk (toDecimalAux (n + 1) n)

/-- Python str(i) for an int. -/
def intStr (i : Int) : String :=
  if i < 0 then "-" ++ decimalStr i.natAbs else decimalStr i.natAbs

/-- Python format specifier `03d`: decimal digits, left padded with zeros to
a minimum width of 3. -/
def pad3 (n : Nat) : String :=
  let s := decimalStr n
  if 3 ≤ s.length then s
  else String.mk (List.replicate (3 - s.length) (digitChar 0) ++ s.data)

/-- A single quote character as a string (used by the converter's final
progress message, which quotes the output folder name). -/
def squote : String := String.mk [Char.ofNat 39]

/-- One sheet of a workbook: named, ordered columns and ordered rows of
cells. -/
structure Sheet where
  columns : List String
  rows : List (List Cell)
deriving DecidableEq

/-- A workbook: the ordered sheets with their names, in file order. -/
abbrev Workbook := List (String × Sheet)

/-- The external workbook file: readable with parsed content, or unreadable
(missing path or unparseable file), carrying the exception text raised by
the reading library. -/
inductive ExcelSource where
  | unreadable : String → ExcelSource
  | workbook : Workbook → ExcelSource

/-- The content the converter hands the PDF renderer for one row: the title
paragraph text and the two-column table data, in order. -/
structure Document where
  title : String
  table : List (String × String)
deriving DecidableEq

/-- Content of a file in the output directory: a rendered document written
by the converter, or arbitrary pre-existing data of an unrelated file. -/
inductive FileData where
  | pdf : Document → FileData
  | raw : String → FileData
deriving DecidableEq

/-- The output directory: an ordered finite map from filename to content. -/
abbrev Dir := List (String × FileData)

/-- Look up a file by name in a directory. -/
def dirLookup : Dir → String → Option FileData
  | [], _ => none
  | (k, v) :: d, n => if k = n then some v else dirLookup d n

/-- Write a file: overwrite in place when the name exists, create it
otherwise. -/
def setFile (d : Dir) (k : String) (v : FileData) : Dir :=
  if (dirLookup d k).isSome then d.map (fun p => if p.1 = k then (k, v) else p)
  else d ++ [(k, v)]

/-- Python truthiness of the optional sheet_name argument: None and the
empty string are both falsy (source line 39, `if sheet_name:`). -/
def truthy : Option String → Bool
  | none => false
  | some s => !(s == "")

/-- Sheet selection by name, as `pd.read_excel(path, sheet_name=name)`
resolves it: the first sheet with the given name. -/
def findSheet : Workbook → String → Option Sheet
  | [], _ => none
  | (nm, sh) :: wb, n => if nm = n then some sh else findSheet wb n

/-- The sheet `pd.read_excel` reads: the named sheet when the argument is
truthy, the first sheet otherwise (source lines 39-42). -/
def selectSheet (wb : Workbook) (sheet_name : Option String) : Option Sheet :=
  if truthy sheet_name then findSheet wb (sheet_name.getD "")
  else wb.head?.map Prod.snd

/-- The DataFrame returned by read_excel_data: ordered columns and rows. -/
structure DataFrame where
  columns : List String
  rows : List (List Cell)
deriving DecidableEq

/-- `df.fillna of pandas applied with the empty string: every NaN cell
becomes the empty string, all other cells are unchanged, no column is
dropped (source line 45). -/
def fillnaCell : Cell → Cell
  | .na => .strV ""
  | c => c

/-- The DataFrame obtained from a sheet after the fillna normalization. -/
def fillnaFrame (sh : Sheet) : DataFrame :=
  { columns := sh.columns, rows := sh.rows.map (fun r => r.map fillnaCell) }

/-- Exception text pandas raises when a requested sheet does not exist
(external library message; its exact content matters to no claim). -/
def sheet_missing_message (sheet_name : Option String) : String :=
  "Worksheet named " ++ squote ++ sheet_name.getD "" ++ squote ++ " not found"

/-- ExcelToPdfConverter.read_excel_data (source lines 28-52): reads the
selected sheet, normalizes NaN to the empty string, logs a success line;
on any read error logs the exception and returns None. -/
def read_excel_data (src : ExcelSource) (sheet_name : Option String) :
    Option DataFrame × List String :=
  match src with
  | .unreadable e => (none, ["Error reading Excel file: " ++ e])
  | .workbook wb =>
    match selectSheet wb sheet_name with
    | none => (none, ["Error reading Excel file: " ++ sheet_missing_message sheet_name])
    | some sh =>
      (some (fillnaFrame sh),
       ["Successfully read " ++ decimalStr sh.rows.length ++ " rows and "
          ++ decimalStr sh.columns.length ++ " columns from Excel file"])

/-- Stringification of one cell value in create_pdf_from_row (source lines
91-98): NaN becomes the empty string, numbers and everything else use
str(). -/
def cellValueStr : Cell → String
  | .na => ""
  | .intV n => intStr n
  | .strV s => s

/-- Output filename for one row (source line 64). -/
def pdf_filename ( filename_prefix : String) (row_index : Nat) : String :=
  filename_prefix ++ "_" ++ pad3 (row_index + 1) ++ ".pdf"

/-- The document content built for one row (source lines 75-103): the title
paragraph and the two-column table, one table row per field in the row's
original order. -/
def buildDocument (row_data : List (String × Cell)) (row_index : Nat) : Document :=
  { title := "Record " ++ decimalStr (row_index + 1),
    table := row_data.map (fun p => (p.1, cellValueStr p.2)) }

/-- ExcelToPdfConverter.create_pdf_from_row (source lines 54-126): builds
the document for the row and attempts to write it; a write failure is
caught, logged, and leaves the directory unchanged. -/
def create_pdf_from_row (fs : String → Option String) (dir : Dir)
    (row_data : List (String × Cell)) (row_index : Nat)
    ( filename_prefix : String) : Dir × List String :=
  match fs (pdf_filename filename_prefix row_index) with
  | none =>
    (setFile dir (pdf_filename filename_prefix row_index)
       (FileData.pdf (buildDocument row_data row_index)),
     ["Created PDF: " ++ pdf_filename filename_prefix row_index])
  | some e =>
    (dir, ["Error creating PDF " ++ pdf_filename filename_prefix row_index ++ ": " ++ e])

/-- Enumeration of the rows of a DataFrame paired with their columns, from
a given start index. -/
def enumZipRows (cols : List String) : Nat → List (List Cell) → List (Nat × List (String × Cell))
  | _, [] => []
  | i, r :: rs => (i, cols.zip r) :: enumZipRows cols (i + 1) rs

/-- df.iterrows of pandas on a frame with the default RangeIndex: yields
(positional index, row as an ordered column-to-value mapping). -/
def DataFrame.iterrows (df : DataFrame) : List (Nat × List (String × Cell)) :=
  enumZipRows df.columns 0 df.rows

/-- The per-row loop of convert_all_rows (source lines 145-146). -/
def processRows (fs : String → Option String) (dir : Dir)
    (rows : List (Nat × List (String × Cell))) ( filename_prefix : String) :
    Dir × List String :=
  match rows with
  | [] => (dir, [])
  | x :: rest =>
    let s1 := create_pdf_from_row fs dir x.2 x.1 filename_prefix
    let s2 := processRows fs s1.1 rest filename_prefix
    (s2.1, s1.2 ++ s2.2)

/-- Default value of the filename_prefix parameter in the source
(`filename_prefix="row"` on lines 54 and 128). -/
def defaultPrefixValue : String := "row"

/-- ExcelToPdfConverter.convert_all_rows (source lines 128-148): reads the
selected sheet once; on a read failure returns with the directory
untouched; otherwise renders every row in order and logs progress and the
completion message. -/
def convert_all_rows (fs : String → Option String) (src : ExcelSource)
    (output_folder : String) (dir : Dir) (sheet_name : Option String)
    ( filename_prefix : String) : Dir × List String :=
  match read_excel_data src sheet_name with
  | (none, logs) => (dir, logs)
  | (some df, logs) =>
    let pr := processRows fs dir df.iterrows filename_prefix
    (pr.1,
     (logs ++ ("Processing " ++ decimalStr df.rows.length ++ " rows...") :: pr.2)
       ++ ["Conversion complete! " ++ decimalStr df.rows.length ++ " PDFs created in "
             ++ squote ++ output_folder ++ squote ++ " folder"])

/-- ExcelToPdfConverter.list_sheets (source lines 150-162): the sheet names
in file order; on a read error logs the exception and returns the empty
list. -/
def list_sheets (src : ExcelSource) : List String × List String :=
  match src with
  | .workbook wb => (wb.map Prod.fst, [])
  | .unreadable e => ([], ["Error reading Excel file: " ++ e])

/-- Folding step that reads a decimal digit character back into a number. -/
def decStep (a : Nat) (c : Char) : Nat := 10 * a + (c.toNat - 48)

/-- Numeric value of a decimal digit string. -/
def decVal (l : List Char) : Nat := l.foldl decStep 0

/-- Apply a list of file writes in order. -/
def applyWrites : List (String × FileData) → Dir → Dir
  | [], d => d
  | (k, v) :: ws, d => applyWrites ws (setFile d k v)

/-- The log line create_pdf_from_row prints for one enumerated row. -/
def rowLog (fs : String → Option String) ( filename_prefix : String)
    (x : Nat × List (String × Cell)) : String :=
  match fs (pdf_filename filename_prefix x.1) with
  | none => "Created PDF: " ++ pdf_filename filename_prefix x.1
  | some e => "Error creating PDF " ++ pdf_filename filename_prefix x.1 ++ ": " ++ e

/-- The file writes performed for a list of enumerated rows: one per row
whose build succeeds, in row order. -/
def rowWriteList (fs : String → Option String) ( filename_prefix : String)
    (L : List (Nat × List (String × Cell))) : List (String × FileData) :=
  (L.filter (fun x => (fs (pdf_filename filename_prefix x.1)).isNone)).map
    (fun x => (pdf_filename filename_prefix x.1, FileData.pdf (buildDocument x.2 x.1)))

/-- First sheet of the concrete example workbook; its second row has a
missing Name cell. -/
def shEx : Sheet :=
  { columns := ["Name", "Age"],
    rows := [[Cell.strV "John Doe", Cell.intV 28],
             [Cell.na, Cell.intV 35]] }

/-- Second sheet of the concrete example workbook. -/
def shExtra : Sheet := { columns := ["Dept"], rows := [[Cell.strV "HR"]] }

/-- Concrete two-sheet workbook used to evaluate the theorems on an
explicit input. -/
def wbEx : Workbook := [("Employees", shEx), ("Extra", shExtra)]

/-- The DataFrame read_excel_data produces for the first sheet of wbEx. -/
def dfEx : DataFrame :=
  { columns := ["Name", "Age"],
    rows := [[Cell.strV "John Doe", Cell.intV 28],
             [Cell.strV "", Cell.intV 35]] }

/-- Concrete one-sheet, two-row workbook used to exercise a row-level
write failure on an explicit input. -/
def wbB : Workbook :=
  [("Sheet1", { columns := ["Name"], rows := [[Cell.strV "A"], [Cell.strV "B"]] })]

/-- The DataFrame read_excel_data produces for the only sheet of wbB. -/
def dfB : DataFrame := { columns := ["Name"], rows := [[Cell.strV "A"], [Cell.strV "B"]] }

/-- Environment oracle under which the write of exactly one filename fails,
with exception text e; every other write succeeds. -/
def failOn (bad : String) (e : String) : String → Option String :=
  fun n => if n = bad then some e else none

/-! Helper lemmas: the decimal rendering has a left inverse, hence `pad3`
and the filename scheme are injective. -/

theorem toDecimalAux_fuel : ∀ f g n, n < f → n < g →
    toDecimalAux f n = toDecimalAux g n := by
  intro f
  induction f with
  | zero => intro g n hf; omega
  | succ f ih =>
    intro g n hf hg
    match g, hg with
    | g + 1, _ =>
      by_cases h10 : n < 10
      · simp [toDecimalAux, h10]
      · have hn0 : 0 < n := by omega
        have hdiv : n / 10 < n := Nat.div_lt_self hn0 (by omega)
        simp only [toDecimalAux, h10, if_false]
        rw [ih g (n / 10) (by omega) (by omega)]

theorem decStep_digitChar (a d : Nat) (hd : d < 10) :
    decStep a (digitChar d) = 10 * a + d := by
  interval_cases d <;> rfl

theorem decVal_toDecimalAux : ∀ n, decVal (toDecimalAux (n + 1) n) = n := by
  intro n
  induction n using Nat.strong_induction_on with
  | _ n ih =>
    by_cases h10 : n < 10
    · simp only [decVal, toDecimalAux, h10, if_true, List.foldl]
      rw [decStep_digitChar 0 n h10]
      omega
    · have hn0 : 0 < n := by omega
      have hdiv : n / 10 < n := Nat.div_lt_self hn0 (by omega)
      simp only [decVal, toDecimalAux, h10, if_false]
      rw [toDecimalAux_fuel n (n / 10 + 1) (n / 10) (by omega) (by omega)]
      rw [List.foldl_append]
      have ihv : List.foldl decStep 0 (toDecimalAux (n / 10 + 1) (n / 10)) = n / 10 := ih (n / 10) hdiv
      rw [ihv]
      simp only [List.foldl]
      rw [decStep_digitChar (n / 10) (n % 10) (Nat.mod_lt n (by omega))]
      omega

theorem decVal_replicate_zero (k : Nat) (l : List Char) :
    decVal (List.replicate k (digitChar 0) ++ l) = decVal l := by
  induction k with
  | zero => simp
  | succ k ih =>
    simp only [List.replicate, List.cons_append, decVal, List.foldl] at ih ⊢
    have : decStep 0 (digitChar 0) = 0 := by rfl
    rw [this]
    exact ih

theorem decVal_pad3 (n : Nat) : decVal (pad3 n).data = n := by
  unfold pad3
  by_cases h : 3 ≤ (decimalStr n).length
  · simp only [h, if_true]
    exact decVal_toDecimalAux n
  · simp only [h, if_false]
    show decVal (List.replicate _ (digitChar 0) ++ (decimalStr n).data) = n
    rw [decVal_replicate_zero]
    exact decVal_toDecimalAux n

theorem pad3_injective {m n : Nat} (h : pad3 m = pad3 n) : m = n := by
  have := congrArg (fun s => decVal s.data) h
  simpa [decVal_pad3] using this

theorem string_data_append (a b : String) : (a ++ b).data = a.data ++ b.data := rfl

theorem pdf_filename_inj ( filename_prefix : String) {i j : Nat}
    (h : pdf_filename filename_prefix i = pdf_filename filename_prefix j) : i = j := by
  unfold pdf_filename at h
  have hd := congrArg String.data h
  simp only [string_data_append] at hd
  have h1 : (pad3 (i + 1)).data ++ (".pdf" : String).data
      = (pad3 (j + 1)).data ++ (".pdf" : String).data := by
    rw [List.append_assoc, List.append_assoc, List.append_assoc, List.append_assoc] at hd
    exact List.append_cancel_left (List.append_cancel_left hd)
  have h2 : (pad3 (i + 1)).data = (pad3 (j + 1)).data := List.append_cancel_right h1
  have h3 := congrArg decVal h2
  rw [decVal_pad3, decVal_pad3] at h3
  omega

/-! Helper lemmas about the directory model. -/

theorem dirLookup_append_left (d₁ d₂ : Dir) (k : String) (w : FileData)
    (h : dirLookup d₁ k = some w) : dirLookup (d₁ ++ d₂) k = some w := by
  induction d₁ with
  | nil => simp [dirLookup] at h
  | cons p d ih =>
    show (if p.1 = k then some p.2 else dirLookup (d ++ d₂) k) = some w
    by_cases hp : p.1 = k
    · rw [if_pos hp]
      rw [show dirLookup (p :: d) k = if p.1 = k then some p.2 else dirLookup d k from rfl,
        if_pos hp] at h
      exact h
    · rw [if_neg hp]
      rw [show dirLookup (p :: d) k = if p.1 = k then some p.2 else dirLookup d k from rfl,
        if_neg hp] at h
      exact ih h

theorem dirLookup_append_right (d₁ d₂ : Dir) (k : String)
    (h : dirLookup d₁ k = none) : dirLookup (d₁ ++ d₂) k = dirLookup d₂ k := by
  induction d₁ with
  | nil => rfl
  | cons p d ih =>
    show (if p.1 = k then some p.2 else dirLookup (d ++ d₂) k) = dirLookup d₂ k
    rw [show dirLookup (p :: d) k = if p.1 = k then some p.2 else dirLookup d k from rfl] at h
    by_cases hp : p.1 = k
    · rw [if_pos hp] at h
      exact absurd h (by simp)
    · rw [if_neg hp] at h
      rw [if_neg hp]
      exact ih h

theorem dirLookup_replace_ne (kw k : String) (v : FileData) (h : kw ≠ k) (d : Dir) :
    dirLookup (d.map (fun p => if p.1 = kw then (kw, v) else p)) k = dirLookup d k := by
  induction d with
  | nil => rfl
  | cons p d ih =>
    simp only [List.map_cons]
    by_cases hp : p.1 = kw
    · rw [if_pos hp]
      show (if kw = k then some v else _) = _
      rw [if_neg h]
      have hpk : ¬p.1 = k := by rw [hp]; exact h
      show _ = if p.1 = k then some p.2 else dirLookup d k
      rw [if_neg hpk]
      exact ih
    · rw [if_neg hp]
      show (if p.1 = k then some p.2 else _) = if p.1 = k then some p.2 else dirLookup d k
      by_cases hk : p.1 = k
      · rw [if_pos hk, if_pos hk]
      · rw [if_neg hk, if_neg hk]
        exact ih

theorem dirLookup_setFile_ne (d : Dir) (kw k : String) (v : FileData)
    (h : kw ≠ k) : dirLookup (setFile d kw v) k = dirLookup d k := by
  unfold setFile
  by_cases hs : (dirLookup d kw).isSome
  · rw [if_pos hs]
    exact dirLookup_replace_ne kw k v h d
  · rw [if_neg hs]
    cases hd : dirLookup d k with
    | some w => exact dirLookup_append_left d [(kw, v)] k w hd
    | none =>
      rw [dirLookup_append_right d [(kw, v)] k hd]
      show (if kw = k then some v else none) = none
      rw [if_neg h]

theorem dirLookup_eq_none_of_not_mem (d : Dir) (k : String)
    (h : k ∉ d.map Prod.fst) : dirLookup d k = none := by
  induction d with
  | nil => rfl
  | cons p d ih =>
    simp only [List.map_cons, List.mem_cons] at h
    push_neg at h
    have hpk : p.1 ≠ k := Ne.symm h.1
    show (if p.1 = k then some p.2 else dirLookup d k) = none
    rw [if_neg hpk]
    exact ih h.2

theorem setFile_fresh (d : Dir) (k : String) (v : FileData)
    (h : dirLookup d k = none) : setFile d k v = d ++ [(k, v)] := by
  simp [setFile, h]

theorem applyWrites_fresh : ∀ (ws : List (String × FileData)) (d : Dir),
    (ws.map Prod.fst).Nodup → (∀ k ∈ ws.map Prod.fst, dirLookup d k = none) →
    applyWrites ws d = d ++ ws := by
  intro ws
  induction ws with
  | nil => intro d _ _; simp [applyWrites]
  | cons p ws ih =>
    intro d hnd hfresh
    simp only [List.map_cons, List.nodup_cons] at hnd
    obtain ⟨k, v⟩ := p
    simp only [applyWrites]
    rw [setFile_fresh d k v (hfresh k (by simp))]
    rw [ih (d ++ [(k, v)]) hnd.2 ?_]
    · simp
    · intro k₁ hk₁
      rw [dirLookup_append_right d [(k, v)] k₁ (hfresh k₁ (by simp [hk₁]))]
      have hne : k ≠ k₁ := fun he => hnd.1 (he ▸ hk₁)
      show (if k = k₁ then some v else none) = none
      rw [if_neg hne]

theorem applyWrites_nil_dir (ws : List (String × FileData))
    (hnd : (ws.map Prod.fst).Nodup) : applyWrites ws [] = ws := by
  rw [applyWrites_fresh ws [] hnd (fun k _ => rfl)]
  rfl

theorem dirLookup_isSome_of_mem {d : Dir} {k : String} {v : FileData}
    (hmem : (k, v) ∈ d) : (dirLookup d k).isSome := by
  induction d with
  | nil => simp at hmem
  | cons p d ih =>
    show (if p.1 = k then some p.2 else dirLookup d k).isSome
    by_cases hp : p.1 = k
    · rw [if_pos hp]; rfl
    · rw [if_neg hp]
      rcases List.mem_cons.mp hmem with he | hm
      · exact absurd (congrArg Prod.fst he.symm) hp
      · exact ih hm

theorem map_if_id (d : Dir) (k : String) (v : FileData)
    (h : ∀ q ∈ d, q.1 ≠ k) : d.map (fun p => if p.1 = k then (k, v) else p) = d := by
  induction d with
  | nil => rfl
  | cons p d ih =>
    simp only [List.map_cons]
    rw [if_neg (h p (by simp))]
    rw [ih (fun q hq => h q (List.mem_cons_of_mem _ hq))]

theorem replace_map_eq_self (d : Dir) (k : String) (v : FileData)
    (hnd : (d.map Prod.fst).Nodup) (hmem : (k, v) ∈ d) :
    d.map (fun p => if p.1 = k then (k, v) else p) = d := by
  induction d with
  | nil => rfl
  | cons p d ih =>
    simp only [List.map_cons, List.nodup_cons] at hnd
    rcases List.mem_cons.mp hmem with he | hm
    · subst he
      simp only [List.map_cons]
      rw [if_pos trivial]
      congr 1
      apply map_if_id
      intro q hq hqk
      have hmm2 : q.1 ∈ List.map Prod.fst d := List.mem_map_of_mem Prod.fst hq
      rw [hqk] at hmm2
      exact hnd.1 hmm2
    · have hp : p.1 ≠ k := by
        intro hpk
        have hmm2 : (k, v).1 ∈ List.map Prod.fst d := List.mem_map_of_mem Prod.fst hm
        rw [← hpk] at hmm2
        exact hnd.1 hmm2
      simp only [List.map_cons, if_neg hp]
      rw [ih hnd.2 hm]

theorem setFile_eq_self (d : Dir) (k : String) (v : FileData)
    (hnd : (d.map Prod.fst).Nodup) (hmem : (k, v) ∈ d) : setFile d k v = d := by
  unfold setFile
  rw [if_pos (dirLookup_isSome_of_mem hmem)]
  exact replace_map_eq_self d k v hnd hmem

theorem applyWrites_subset_self : ∀ (ws : List (String × FileData)) (d : Dir),
    (d.map Prod.fst).Nodup → (∀ x ∈ ws, x ∈ d) → applyWrites ws d = d := by
  intro ws
  induction ws with
  | nil => intro d _ _; rfl
  | cons p ws ih =>
    intro d hnd hsub
    obtain ⟨k, v⟩ := p
    simp only [applyWrites]
    rw [setFile_eq_self d k v hnd (hsub (k, v) (by simp))]
    exact ih d hnd (fun x hx => hsub x (List.mem_cons_of_mem _ hx))

/-! Characterization of the per-row loop: the directory receives exactly
the writes of the rows whose build succeeded, and one log line is printed
per row. -/

theorem processRows_eq (fs : String → Option String) ( filename_prefix : String) :
    ∀ (L : List (Nat × List (String × Cell))) (dir : Dir),
    processRows fs dir L filename_prefix
      = (applyWrites (rowWriteList fs filename_prefix L) dir,
         L.map (rowLog fs filename_prefix)) := by
  intro L
  induction L with
  | nil => intro dir; rfl
  | cons x L ih =>
    intro dir
    simp only [processRows, List.map_cons]
    cases hfs : fs (pdf_filename filename_prefix x.1) with
    | none =>
      simp only [create_pdf_from_row, hfs, rowLog, rowWriteList, List.filter_cons,
        Option.isNone_none, if_true, List.map_cons, applyWrites]
      rw [ih]
      simp [rowWriteList]
    | some e =>
      simp only [create_pdf_from_row, hfs, rowLog, rowWriteList, List.filter_cons,
        Option.isNone_some, if_false]
      rw [ih]
      simp [rowWriteList]

theorem enumZipRows_map_fst (cols : List String) : ∀ (rs : List (List Cell)) (i : Nat),
    (enumZipRows cols i rs).map Prod.fst = List.range' i rs.length := by
  intro rs
  induction rs with
  | nil => intro i; rfl
  | cons r rs ih =>
    intro i
    simp only [enumZipRows, List.map_cons, List.length_cons, List.range'_succ]
    rw [ih (i + 1)]

theorem iterrows_map_fst (df : DataFrame) :
    df.iterrows.map Prod.fst = List.range df.rows.length := by
  rw [DataFrame.iterrows, enumZipRows_map_fst, List.range_eq_range']

theorem rowWriteList_keys (fs : String → Option String) ( filename_prefix : String)
    (L : List (Nat × List (String × Cell))) :
    (rowWriteList fs filename_prefix L).map Prod.fst
      = ((L.filter (fun x => (fs (pdf_filename filename_prefix x.1)).isNone)).map
          Prod.fst).map (fun j => pdf_filename filename_prefix j) := by
  simp [rowWriteList, List.map_map]

theorem iterrows_write_keys_nodup (df : DataFrame) (fs : String → Option String)
    ( filename_prefix : String) :
    ((rowWriteList fs filename_prefix df.iterrows).map Prod.fst).Nodup := by
  rw [rowWriteList_keys]
  apply List.Nodup.map
  · intro a b hab
    exact pdf_filename_inj filename_prefix hab
  · have hsub : ((df.iterrows.filter
        (fun x => (fs (pdf_filename filename_prefix x.1)).isNone)).map Prod.fst).Sublist
        (df.iterrows.map Prod.fst) := (List.filter_sublist _).map Prod.fst
    have hnd : (df.iterrows.map Prod.fst).Nodup := by
      rw [iterrows_map_fst]
      exact List.nodup_range _
    exact hnd.sublist hsub

theorem convert_all_rows_of_read (fs : String → Option String) (src : ExcelSource)
    (output_folder : String) (dir : Dir) (sheet_name : Option String)
    ( filename_prefix : String) (df : DataFrame)
    (hread : (read_excel_data src sheet_name).1 = some df) :
    convert_all_rows fs src output_folder dir sheet_name filename_prefix
      = (applyWrites (rowWriteList fs filename_prefix df.iterrows) dir,
         ((read_excel_data src sheet_name).2
            ++ ("Processing " ++ decimalStr df.rows.length ++ " rows...")
               :: df.iterrows.map (rowLog fs filename_prefix))
           ++ ["Conversion complete! " ++ decimalStr df.rows.length ++ " PDFs created in "
                 ++ squote ++ output_folder ++ squote ++ " folder"]) := by
  unfold convert_all_rows
  have hpair : read_excel_data src sheet_name
      = (some df, (read_excel_data src sheet_name).2) := by
    rw [← hread]
  rw [hpair]
  simp only [processRows_eq]

theorem convert_all_rows_of_fail (fs : String → Option String) (src : ExcelSource)
    (output_folder : String) (dir : Dir) (sheet_name : Option String)
    ( filename_prefix : String)
    (hread : (read_excel_data src sheet_name).1 = none) :
    convert_all_rows fs src output_folder dir sheet_name filename_prefix
      = (dir, (read_excel_data src sheet_name).2) := by
  unfold convert_all_rows
  have hpair : read_excel_data src sheet_name
      = (none, (read_excel_data src sheet_name).2) := by
    rw [← hread]
  rw [hpair]

theorem getElem?_zip_eq {α β : Type} : ∀ (as : List α) (bs : List β) (i : Nat) (a : α) (b : β),
    as[i]? = some a → bs[i]? = some b → (as.zip bs)[i]? = some (a, b) := by
  intro as
  induction as with
  | nil => intro bs i a b ha _; simp at ha
  | cons x as ih =>
    intro bs i a b ha hb
    cases bs with
    | nil => simp at hb
    | cons y bs =>
      cases i with
      | zero => simp_all
      | succ i =>
        simp only [List.zip_cons_cons, List.getElem?_cons_succ] at ha hb ⊢
        exact ih bs i a b ha hb

theorem enumZipRows_mem (cols : List String) : ∀ (rs : List (List Cell)) (i0 j : Nat),
    j < rs.length → ∃ row, (i0 + j, row) ∈ enumZipRows cols i0 rs := by
  intro rs
  induction rs with
  | nil => intro i0 j h; simp at h
  | cons r rs ih =>
    intro i0 j h
    cases j with
    | zero => exact ⟨cols.zip r, by simp [enumZipRows]⟩
    | succ j =>
      obtain ⟨row, hrow⟩ := ih (i0 + 1) j (by simp at h; omega)
      refine ⟨row, ?_⟩
      have he : i0 + (j + 1) = i0 + 1 + j := by omega
      rw [he]
      exact List.mem_cons_of_mem _ hrow

theorem dirLookup_applyWrites_not_mem : ∀ (ws : List (String × FileData)) (dir : Dir)
    (k : String), k ∉ ws.map Prod.fst →
    dirLookup (applyWrites ws dir) k = dirLookup dir k := by
  intro ws
  induction ws with
  | nil => intro dir k _; rfl
  | cons p ws ih =>
    intro dir k h
    obtain ⟨k₁, v⟩ := p
    simp only [List.map_cons, List.mem_cons] at h
    push_neg at h
    simp only [applyWrites]
    rw [ih _ k h.2, dirLookup_setFile_ne dir k₁ k v (Ne.symm h.1)]

theorem findSheet_of_get (wb : Workbook) : ∀ (i : Nat) (nm : String) (sh : Sheet),
    (wb.map Prod.fst).Nodup → wb[i]? = some (nm, sh) → findSheet wb nm = some sh := by
  induction wb with
  | nil => intro i nm sh _ h; simp at h
  | cons p wb ih =>
    intro i nm sh hnd hget
    cases i with
    | zero =>
      simp only [List.getElem?_cons_zero, Option.some.injEq] at hget
      subst hget
      show (if nm = nm then some sh else findSheet wb nm) = some sh
      rw [if_pos rfl]
    | succ i =>
      simp only [List.getElem?_cons_succ] at hget
      simp only [List.map_cons, List.nodup_cons] at hnd
      have hmem : nm ∈ wb.map Prod.fst := by
        have hm : (nm, sh) ∈ wb := List.getElem?_mem hget
        exact List.mem_map_of_mem Prod.fst hm
      have hne : p.1 ≠ nm := fun he => hnd.1 (he ▸ hmem)
      show (if p.1 = nm then some p.2 else findSheet wb nm) = some sh
      rw [if_neg hne]
      exact ih i nm sh hnd.2 hget

/-! The claims. -/

/-- Claim C2: for every row and zero-based record index, create_pdf_from_row
builds a document whose title is "Record " followed by the 1-based index,
whose rendered field-name list equals exactly the row's columns in original
order with one table row per field (no duplication, omission or
reordering), and writes exactly that document under the row's filename when
the write succeeds. -/
theorem c2_row_rendering (row_data : List (String × Cell)) (row_index : Nat)
    ( filename_prefix : String) (dir : Dir) :
    (buildDocument row_data row_index).title = "Record " ++ decimalStr (row_index + 1)
    ∧ (buildDocument row_data row_index).table.map Prod.fst = row_data.map Prod.fst
    ∧ (buildDocument row_data row_index).table.length = row_data.length
    ∧ create_pdf_from_row (fun _ => none) dir row_data row_index filename_prefix
        = (setFile dir (pdf_filename filename_prefix row_index)
             (FileData.pdf (buildDocument row_data row_index)),
           ["Created PDF: " ++ pdf_filename filename_prefix row_index]) := by
  refine ⟨rfl, ?_, ?_, rfl⟩
  · simp [buildDocument, List.map_map]
  · simp [buildDocument]

/-- Claim C7: when the sheet cannot be read (in particular when the workbook
path does not exist), convert_all_rows leaves the output directory
untouched (zero output files), aborts the whole operation, and its only
report is the read error, not an unrelated one. -/
theorem c7_unreadable_source_aborts (fs : String → Option String) (src : ExcelSource)
    (output_folder : String) (dir : Dir) (sheet_name : Option String)
    ( filename_prefix : String) (e : String)
    (hread : (read_excel_data src sheet_name).1 = none) :
    convert_all_rows fs src output_folder dir sheet_name filename_prefix
      = (dir, (read_excel_data src sheet_name).2)
    ∧ read_excel_data (ExcelSource.unreadable e) sheet_name
      = (none, ["Error reading Excel file: " ++ e])
    ∧ convert_all_rows fs (ExcelSource.unreadable e) output_folder dir sheet_name
        filename_prefix
      = (dir, ["Error reading Excel file: " ++ e]) := by
  refine ⟨convert_all_rows_of_fail fs src output_folder dir sheet_name filename_prefix hread,
    rfl, ?_⟩
  exact convert_all_rows_of_fail fs (ExcelSource.unreadable e) output_folder dir
    sheet_name filename_prefix rfl

/-- Witness for C7 at a concrete unreadable source. -/
theorem c7_unreadable_source_aborts_witness :
    (read_excel_data (ExcelSource.unreadable "No such file") none).1 = none
    ∧ convert_all_rows (fun _ => none) (ExcelSource.unreadable "No such file")
        "pdf_output" [] none "row"
      = ([], ["Error reading Excel file: No such file"]) :=
  ⟨rfl,
   (c7_unreadable_source_aborts (fun _ => none) (ExcelSource.unreadable "No such file")
     "pdf_output" [] none "row" "No such file" rfl).2.2⟩

/-- Claim C10: an empty-string sheet name is falsy in Python, so
read_excel_data and convert_all_rows treat it exactly like an omitted sheet
name and read the first/default sheet instead of failing. -/
theorem c10_empty_sheet_name_is_default (fs : String → Option String) (src : ExcelSource)
    (output_folder : String) (dir : Dir) ( filename_prefix : String) :
    read_excel_data src (some "") = read_excel_data src none
    ∧ convert_all_rows fs src output_folder dir (some "") filename_prefix
      = convert_all_rows fs src output_folder dir none filename_prefix := by
  have h : read_excel_data src (some "") = read_excel_data src none := by
    cases src with
    | unreadable e => rfl
    | workbook wb => rfl
  refine ⟨h, ?_⟩
  unfold convert_all_rows
  rw [h]

/-- Claim C8: with fixed workbook, sheet selection, prefix and output
folder, convert_all_rows is idempotent: re-running it over the output it
produced from an empty folder reproduces exactly the same directory (same
filenames, same count, same document contents — the embedded content
carries no timestamp) and the same logs. -/
theorem c8_idempotent_rerun (fs : String → Option String) (src : ExcelSource)
    (output_folder : String) (sheet_name : Option String) ( filename_prefix : String) :
    convert_all_rows fs src output_folder
        (convert_all_rows fs src output_folder [] sheet_name filename_prefix).1
        sheet_name filename_prefix
      = convert_all_rows fs src output_folder [] sheet_name filename_prefix := by
  cases hread : (read_excel_data src sheet_name).1 with
  | none =>
    rw [convert_all_rows_of_fail fs src output_folder [] sheet_name filename_prefix hread]
    exact convert_all_rows_of_fail fs src output_folder [] sheet_name filename_prefix hread
  | some df =>
    rw [convert_all_rows_of_read fs src output_folder [] sheet_name filename_prefix df hread,
      convert_all_rows_of_read fs src output_folder _ sheet_name filename_prefix df hread]
    have hnd := iterrows_write_keys_nodup df fs filename_prefix
    rw [applyWrites_nil_dir _ hnd]
    rw [applyWrites_subset_self _ _ hnd (fun x hx => hx)]

/-- Claim C9: convert_all_rows only adds or overwrites files named by its
own filename scheme; every file whose name matches no index of the scheme
keeps exactly its previous content. -/
theorem c9_unrelated_files_untouched (fs : String → Option String) (src : ExcelSource)
    (output_folder : String) (dir : Dir) (sheet_name : Option String)
    ( filename_prefix : String) (k : String)
    (hk : ∀ i, k ≠ pdf_filename filename_prefix i) :
    dirLookup (convert_all_rows fs src output_folder dir sheet_name filename_prefix).1 k
      = dirLookup dir k := by
  cases hread : (read_excel_data src sheet_name).1 with
  | none =>
    rw [convert_all_rows_of_fail fs src output_folder dir sheet_name filename_prefix hread]
  | some df =>
    rw [convert_all_rows_of_read fs src output_folder dir sheet_name filename_prefix df hread]
    apply dirLookup_applyWrites_not_mem
    rw [rowWriteList_keys]
    intro hmem
    obtain ⟨j, _, hjk⟩ := List.mem_map.mp hmem
    exact hk j hjk.symm

theorem pdf_filename_row_head (i : Nat) :
    (pdf_filename "row" i).data.head? = some (Char.ofNat 114) := rfl

theorem notes_txt_not_scheme (i : Nat) : ("notes.txt" : String) ≠ pdf_filename "row" i := by
  intro h
  have h1 : ("notes.txt" : String).data.head? = (pdf_filename "row" i).data.head? :=
    congrArg (fun s => s.data.head?) h
  rw [pdf_filename_row_head i] at h1
  exact absurd h1 (by decide)

/-- Witness for C9: a pre-existing unrelated file survives a concrete run
unchanged. -/
theorem c9_unrelated_files_untouched_witness :
    ("notes.txt" : String) ≠ pdf_filename "row" 0
    ∧ dirLookup (convert_all_rows (fun _ => none) (ExcelSource.workbook wbEx) "pdf_output"
          [("notes.txt", FileData.raw "keep me")] none "row").1 "notes.txt"
      = some (FileData.raw "keep me") :=
  ⟨notes_txt_not_scheme 0,
   (c9_unrelated_files_untouched (fun _ => none) (ExcelSource.workbook wbEx) "pdf_output"
       [("notes.txt", FileData.raw "keep me")] none "row" "notes.txt"
       (fun i => notes_txt_not_scheme i)).trans rfl⟩

/-- Claim C1: for a readable workbook whose selected sheet has N rows and
no row-level failure, convert_all_rows into an empty folder produces
exactly N output files, named sequentially by the 1-based record index
zero padded to 3 digits with no gaps, and the prefix parameter defaults to
the fixed string "row". -/
theorem c1_sequential_output_files (fs : String → Option String) (src : ExcelSource)
    (output_folder : String) (sheet_name : Option String) ( filename_prefix : String)
    (df : DataFrame)
    (hread : (read_excel_data src sheet_name).1 = some df)
    (hfs : ∀ n, fs n = none) :
    ((convert_all_rows fs src output_folder [] sheet_name filename_prefix).1).map Prod.fst
        = (List.range df.rows.length).map (fun i => pdf_filename filename_prefix i)
    ∧ (convert_all_rows fs src output_folder [] sheet_name filename_prefix).1.length
        = df.rows.length
    ∧ (((convert_all_rows fs src output_folder [] sheet_name filename_prefix).1).map
        Prod.fst).Nodup
    ∧ (∀ i, pdf_filename filename_prefix i
        = filename_prefix ++ "_" ++ pad3 (i + 1) ++ ".pdf")
    ∧ defaultPrefixValue = "row" := by
  have hdir : (convert_all_rows fs src output_folder [] sheet_name filename_prefix).1
      = applyWrites (rowWriteList fs filename_prefix df.iterrows) [] := by
    rw [convert_all_rows_of_read fs src output_folder [] sheet_name filename_prefix df hread]
  rw [hdir, applyWrites_nil_dir _ (iterrows_write_keys_nodup df fs filename_prefix)]
  have hfilter : df.iterrows.filter
      (fun x => (fs (pdf_filename filename_prefix x.1)).isNone) = df.iterrows :=
    List.filter_eq_self.mpr (fun a _ => by rw [hfs]; rfl)
  have hlen : df.iterrows.length = df.rows.length := by
    have h := congrArg List.length (iterrows_map_fst df)
    simpa using h
  refine ⟨?_, ?_, ?_, fun i => rfl, rfl⟩
  · rw [rowWriteList_keys, hfilter, iterrows_map_fst]
  · simp [rowWriteList, hfilter, hlen]
  · exact iterrows_write_keys_nodup df fs filename_prefix

/-- Witness for C1 on a concrete 2-row workbook with prefix "emp". -/
theorem c1_sequential_output_files_witness :
    (read_excel_data (ExcelSource.workbook wbEx) none).1 = some dfEx
    ∧ ((convert_all_rows (fun _ => none) (ExcelSource.workbook wbEx) "pdf_output" []
          none "emp").1).map Prod.fst
        = (List.range dfEx.rows.length).map (fun i => pdf_filename "emp" i)
    ∧ ((convert_all_rows (fun _ => none) (ExcelSource.workbook wbEx) "pdf_output" []
          none "emp").1).map Prod.fst = ["emp_001.pdf", "emp_002.pdf"] :=
  ⟨by decide,
   (c1_sequential_output_files (fun _ => none) (ExcelSource.workbook wbEx) "pdf_output"
      none "emp" dfEx (by decide) (fun n => rfl)).1,
   by decide⟩

/-- Claim C4: when writing one row's output file fails, the failure is
reported for that row alone (the log entry names the row's file, which
carries its 1-based padded index), every other row is still processed and
written, and the failed row's file is simply absent from the output
folder. -/
theorem c4_row_failure_is_isolated (src : ExcelSource) (sheet_name : Option String)
    (output_folder : String) ( filename_prefix : String) (df : DataFrame)
    (i : Nat) (e : String)
    (hread : (read_excel_data src sheet_name).1 = some df)
    (hi : i < df.rows.length) :
    ((convert_all_rows (failOn (pdf_filename filename_prefix i) e) src output_folder []
         sheet_name filename_prefix).1).map Prod.fst
      = ((List.range df.rows.length).filter (fun j => decide (j ≠ i))).map
          (fun j => pdf_filename filename_prefix j)
    ∧ dirLookup (convert_all_rows (failOn (pdf_filename filename_prefix i) e) src
         output_folder [] sheet_name filename_prefix).1
         (pdf_filename filename_prefix i) = none
    ∧ ("Error creating PDF " ++ pdf_filename filename_prefix i ++ ": " ++ e)
        ∈ (convert_all_rows (failOn (pdf_filename filename_prefix i) e) src output_folder []
             sheet_name filename_prefix).2 := by
  have hdir : (convert_all_rows (failOn (pdf_filename filename_prefix i) e) src
        output_folder [] sheet_name filename_prefix).1
      = applyWrites (rowWriteList (failOn (pdf_filename filename_prefix i) e)
          filename_prefix df.iterrows) [] := by
    rw [convert_all_rows_of_read (failOn (pdf_filename filename_prefix i) e) src
      output_folder [] sheet_name filename_prefix df hread]
  have hnd := iterrows_write_keys_nodup df (failOn (pdf_filename filename_prefix i) e)
    filename_prefix
  have hq : ∀ x ∈ df.iterrows,
      ((failOn (pdf_filename filename_prefix i) e) (pdf_filename filename_prefix x.1)).isNone
        = decide (x.1 ≠ i) := by
    intro x _
    by_cases hxi : x.1 = i
    · simp [failOn, hxi]
    · have hne : pdf_filename filename_prefix x.1 ≠ pdf_filename filename_prefix i :=
        fun h => hxi (pdf_filename_inj filename_prefix h)
      simp [failOn, hne, hxi]
  refine ⟨?_, ?_, ?_⟩
  · rw [hdir, applyWrites_nil_dir _ hnd, rowWriteList_keys]
    rw [List.filter_congr hq]
    have hcomp : (fun x : Nat × List (String × Cell) => decide (x.1 ≠ i))
        = ((fun j => decide (j ≠ i)) ∘ Prod.fst) := rfl
    rw [hcomp, ← List.filter_map, iterrows_map_fst]
  · rw [hdir, applyWrites_nil_dir _ hnd]
    apply dirLookup_eq_none_of_not_mem
    rw [rowWriteList_keys]
    intro hmem
    obtain ⟨j, hj, hjeq⟩ := List.mem_map.mp hmem
    have hji : j = i := pdf_filename_inj filename_prefix hjeq
    subst hji
    obtain ⟨x, hxf, hx1⟩ := List.mem_map.mp hj
    have hxq := (List.mem_filter.mp hxf).2
    rw [hx1] at hxq
    simp [failOn] at hxq
  · rw [convert_all_rows_of_read (failOn (pdf_filename filename_prefix i) e) src
      output_folder [] sheet_name filename_prefix df hread]
    obtain ⟨row, hrow⟩ := enumZipRows_mem df.columns df.rows 0 i hi
    rw [Nat.zero_add] at hrow
    have hmem : rowLog (failOn (pdf_filename filename_prefix i) e) filename_prefix (i, row)
        ∈ df.iterrows.map (rowLog (failOn (pdf_filename filename_prefix i) e) filename_prefix) :=
      List.mem_map_of_mem _ hrow
    have hval : rowLog (failOn (pdf_filename filename_prefix i) e) filename_prefix (i, row)
        = "Error creating PDF " ++ pdf_filename filename_prefix i ++ ": " ++ e := by
      simp [rowLog, failOn]
    rw [hval] at hmem
    exact List.mem_append_left _ (List.mem_append_right _ (List.mem_cons_of_mem _ hmem))

/-- Witness for C4 on a concrete 2-row workbook whose second row's write
fails. -/
theorem c4_row_failure_is_isolated_witness :
    ((read_excel_data (ExcelSource.workbook wbB) none).1 = some dfB ∧ 1 < dfB.rows.length)
    ∧ dirLookup (convert_all_rows (failOn (pdf_filename "row" 1) "disk full")
        (ExcelSource.workbook wbB) "pdf_output" [] none "row").1
        (pdf_filename "row" 1) = none
    ∧ ("Error creating PDF " ++ pdf_filename "row" 1 ++ ": " ++ "disk full")
        ∈ (convert_all_rows (failOn (pdf_filename "row" 1) "disk full")
            (ExcelSource.workbook wbB) "pdf_output" [] none "row").2 :=
  ⟨⟨by decide, by decide⟩,
   (c4_row_failure_is_isolated (ExcelSource.workbook wbB) none "pdf_output" "row" dfB 1
      "disk full" (by decide) (by decide)).2.1,
   (c4_row_failure_is_isolated (ExcelSource.workbook wbB) none "pdf_output" "row" dfB 1
      "disk full" (by decide) (by decide)).2.2⟩

/-- Counterexample to claim C5 as stated: on a 2-row workbook whose second
row's write fails, only one file is created, yet the driver's completion
report still says 2 PDFs were created — the reported created-count does
not exclude failed rows, and convert_all_rows returns no count value at
all (its Python return value is None). -/
theorem c5_counterexample_reported_count :
    ((convert_all_rows (failOn "row_002.pdf" "disk full") (ExcelSource.workbook wbB)
        "pdf_output" [] none "row").1).length = 1
    ∧ ((convert_all_rows (failOn "row_002.pdf" "disk full") (ExcelSource.workbook wbB)
        "pdf_output" [] none "row").2).getLast?
      = some ("Conversion complete! 2 PDFs created in " ++ squote ++ "pdf_output"
          ++ squote ++ " folder") :=
  ⟨by decide, by decide⟩

/-- Claim C5 (amended): convert_all_rows returns no count; the driver logs
the number of rows attempted ("Processing N rows...") and its completion
message reports that same row count N as the number of PDFs created,
whether or not any row failed. -/
theorem c5_reported_counts (fs : String → Option String) (src : ExcelSource)
    (output_folder : String) (dir : Dir) (sheet_name : Option String)
    ( filename_prefix : String) (df : DataFrame)
    (hread : (read_excel_data src sheet_name).1 = some df) :
    ((convert_all_rows fs src output_folder dir sheet_name filename_prefix).2).getLast?
      = some ("Conversion complete! " ++ decimalStr df.rows.length ++ " PDFs created in "
          ++ squote ++ output_folder ++ squote ++ " folder")
    ∧ ("Processing " ++ decimalStr df.rows.length ++ " rows...")
        ∈ (convert_all_rows fs src output_folder dir sheet_name filename_prefix).2 := by
  rw [convert_all_rows_of_read fs src output_folder dir sheet_name filename_prefix df hread]
  refine ⟨List.getLast?_concat _, ?_⟩
  exact List.mem_append_left _ (List.mem_append_right _ (List.mem_cons_self _ _))

/-- Witness for the amended C5: the reported counts on a concrete failing
run. -/
theorem c5_reported_counts_witness :
    (read_excel_data (ExcelSource.workbook wbB) none).1 = some dfB
    ∧ ((convert_all_rows (failOn "row_002.pdf" "disk full") (ExcelSource.workbook wbB)
        "out" [] none "row").2).getLast?
      = some ("Conversion complete! " ++ decimalStr dfB.rows.length ++ " PDFs created in "
          ++ squote ++ "out" ++ squote ++ " folder") :=
  ⟨by decide,
   (c5_reported_counts (failOn "row_002.pdf" "disk full") (ExcelSource.workbook wbB)
      "out" [] none "row" dfB (by decide)).1⟩

/-- Claim C3: a cell that is missing (NaN) in the source sheet is
normalized by read_excel_data to the empty string with its column key kept
in place, and the rendered table entry for that cell is the empty string —
never a literal null or NaN marker. -/
theorem c3_missing_cells_normalized (wb : Workbook) (sheet_name : Option String)
    (sh : Sheet) (r c : Nat) (row : List Cell) (nm : String)
    (hsel : selectSheet wb sheet_name = some sh)
    (hrow : sh.rows[r]? = some row)
    (hcell : row[c]? = some Cell.na)
    (hname : sh.columns[c]? = some nm) :
    (read_excel_data (ExcelSource.workbook wb) sheet_name).1 = some (fillnaFrame sh)
    ∧ (fillnaFrame sh).columns = sh.columns
    ∧ (fillnaFrame sh).rows[r]? = some (row.map fillnaCell)
    ∧ (row.map fillnaCell)[c]? = some (Cell.strV "")
    ∧ (buildDocument (sh.columns.zip (row.map fillnaCell)) r).table[c]? = some (nm, "")
    ∧ ("" : String) ≠ "null" ∧ ("" : String) ≠ "NaN" := by
  refine ⟨?_, rfl, ?_, ?_, ?_, by decide, by decide⟩
  · simp [read_excel_data, hsel]
  · show (sh.rows.map (fun r => r.map fillnaCell))[r]? = some (row.map fillnaCell)
    rw [List.getElem?_map, hrow]
    rfl
  · rw [List.getElem?_map, hcell]
    rfl
  · show ((sh.columns.zip (row.map fillnaCell)).map
        (fun p => (p.1, cellValueStr p.2)))[c]? = some (nm, "")
    have hzip : (sh.columns.zip (row.map fillnaCell))[c]? = some (nm, Cell.strV "") := by
      apply getElem?_zip_eq sh.columns (row.map fillnaCell) c nm (Cell.strV "") hname
      rw [List.getElem?_map, hcell]
      rfl
    rw [List.getElem?_map, hzip]
    rfl

/-- Witness for C3 on the concrete workbook whose second row has a missing
Name cell. -/
theorem c3_missing_cells_normalized_witness :
    (selectSheet wbEx none = some shEx
      ∧ shEx.rows[1]? = some [Cell.na, Cell.intV 35]
      ∧ shEx.columns[0]? = some "Name")
    ∧ (read_excel_data (ExcelSource.workbook wbEx) none).1 = some (fillnaFrame shEx)
    ∧ (buildDocument (shEx.columns.zip ([Cell.na, Cell.intV 35].map fillnaCell)) 1).table[0]?
        = some ("Name", "") :=
  ⟨⟨by decide, by decide, by decide⟩,
   (c3_missing_cells_normalized wbEx none shEx 1 0 [Cell.na, Cell.intV 35] "Name"
      (by decide) (by decide) (by decide) (by decide)).1,
   (c3_missing_cells_normalized wbEx none shEx 1 0 [Cell.na, Cell.intV 35] "Name"
      (by decide) (by decide) (by decide) (by decide)).2.2.2.2.1⟩

/-- Claim C6: list_sheets returns the sheet names in file order (selecting
the i-th returned name reads exactly the i-th sheet), and an unreadable
workbook is reported via the logged read error with an empty result. -/
theorem c6_list_sheets_contract (wb : Workbook) (e : String) (i : Nat) (nm : String)
    (sh : Sheet) (hnd : (wb.map Prod.fst).Nodup) (hget : wb[i]? = some (nm, sh))
    (hne : nm ≠ "") :
    list_sheets (ExcelSource.workbook wb) = (wb.map Prod.fst, [])
    ∧ list_sheets (ExcelSource.unreadable e) = ([], ["Error reading Excel file: " ++ e])
    ∧ (list_sheets (ExcelSource.workbook wb)).1[i]? = some nm
    ∧ (read_excel_data (ExcelSource.workbook wb) (some nm)).1 = some (fillnaFrame sh) := by
  refine ⟨rfl, rfl, ?_, ?_⟩
  · show (wb.map Prod.fst)[i]? = some nm
    rw [List.getElem?_map, hget]
    rfl
  · have ht : truthy (some nm) = true := by
      simp [truthy, hne]
    have hsel : selectSheet wb (some nm) = some sh := by
      simp only [selectSheet, ht, if_true, Option.getD_some]
      exact findSheet_of_get wb i nm sh hnd hget
    simp [read_excel_data, hsel]

/-- Witness for C6 on the concrete two-sheet workbook, selecting the second
sheet. -/
theorem c6_list_sheets_contract_witness :
    ((wbEx.map Prod.fst).Nodup ∧ wbEx[1]? = some ("Extra", shExtra))
    ∧ (list_sheets (ExcelSource.workbook wbEx)).1[1]? = some "Extra"
    ∧ (read_excel_data (ExcelSource.workbook wbEx) (some "Extra")).1
        = some (fillnaFrame shExtra) :=
  ⟨⟨by decide, by decide⟩,
   (c6_list_sheets_contract wbEx "No such file" 1 "Extra" shExtra (by decide) (by decide)
      (by decide)).2.2.1,
   (c6_list_sheets_contract wbEx "No such file" 1 "Extra" shExtra (by decide) (by decide)
      (by decide)).2.2.2⟩
